import Mathlib

/-!
Verification of `sftp_backup.py`, a script that compresses local
directories with 7-Zip and uploads the archives over SFTP.

The embedding models:
* `get_args` (argparse configuration: required/optional flags, defaults);
* `compress_directory` (archive name derivation, 7z command line,
  exit-status policy: 0 ok, 1 warning, other codes raise);
* `upload_file` and the main loop of `main` (connect, per-directory
  compress / upload / `os.remove`, close), as a trace of observable events;
* process exit codes (`main` returns normally after printing a connect
  error, so the interpreter exits 0 there; an uncaught exception exits 1;
  an argparse usage error exits 2).

External effects (the 7z subprocess, the SFTP server, the wall clock) are
oracles carried by a `World` value.
-/

namespace SftpBackup

/-- A broken-down local time, as produced by Python's `time.localtime` and
consumed by `time.strftime` in `compress_directory`. -/
structure Tm where
  year : Nat
  month : Nat
  day : Nat
  hour : Nat
  minute : Nat
  second : Nat
deriving DecidableEq

/-- The decimal digit character for `n % 10`. -/
def digitChar (n : Nat) : Char := Char.ofNat (48 + n % 10)

/-- Two-digit zero-padded decimal rendering, as `strftime` does for
`%m %d %H %M %S`. -/
def pad2 (n : Nat) : String := String.mk [digitChar (n / 10), digitChar n]

/-- Four-digit decimal rendering, as `strftime`'s `%Y` renders the
(four-digit) year. -/
def pad4 (n : Nat) : String :=
  String.mk [digitChar (n / 1000), digitChar (n / 100), digitChar (n / 10), digitChar n]

/-- `time.strftime('%Y.%m.%d_%H.%M.%S')` at time `t`
(src/sftp_backup.py line 41). -/
def strftimeTimestamp (t : Tm) : String :=
  pad4 t.year ++ "." ++ pad2 t.month ++ "." ++ pad2 t.day ++ "_" ++
    pad2 t.hour ++ "." ++ pad2 t.minute ++ "." ++ pad2 t.second

/-- `os.path.basename` (POSIX): everything after the last `/` (empty when
the path ends with `/`). -/
def basename (p : String) : String :=
  String.mk ((p.data.reverse.takeWhile (fun c => c ≠ '/')).reverse)

/-- `os.path.join` for two POSIX path components. -/
def osPathJoin (a b : String) : String :=
  if b.data.head? = some '/' then b
  else if a = "" ∨ a.data.getLast? = some '/' then a ++ b
  else a ++ "/" ++ b

/-- The derived archive filename
`os.path.basename(dir) + '_' + time.strftime(...) + '.7z'`
(src/sftp_backup.py lines 39-42). -/
def archiveFilename (dir : String) (t : Tm) : String :=
  basename dir ++ "_" ++ strftimeTimestamp t ++ ".7z"

/-- `os.path.join(tempfile.gettempdir(), archive_filename)`
(src/sftp_backup.py line 50). -/
def pathToArchive (tempDir dir : String) (t : Tm) : String :=
  osPathJoin tempDir (archiveFilename dir t)

/-- The 7z command line built in `compress_directory`
(src/sftp_backup.py lines 54-64): base options always, password flag
appended exactly when a password was supplied. -/
def compressCommands (exe path dir : String) (pw : Option String) : List String :=
  [exe, "a", "-t7z", path, dir, "-mhe", "-mx9"] ++
    (match pw with
     | some p => ["-p" ++ p]
     | none => [])

/-- Result of one `compress_directory` call: `ok path warned` when the
function returns (`warned` records the exit-code-1 warning branch), or
`raised code` when the `CalledProcessError` is re-raised. -/
inductive CompressOutcome where
  | ok (path : String) (warned : Bool)
  | raised (code : Nat)
deriving DecidableEq

/-- `compress_directory` (src/sftp_backup.py lines 29-80) given the 7z
exit status: returns the archive path on exit code 0, returns it with a
warning on exit code 1, re-raises on any other code. -/
def compress_directory (tempDir dir : String) (t : Tm) (exitStatus : Nat) :
    CompressOutcome :=
  let path := pathToArchive tempDir dir t
  if exitStatus = 0 then .ok path false
  else if exitStatus = 1 then .ok path true
  else .raised exitStatus

/-- How the `pysftp.Connection` call in `main` resolves: success, an
`AuthenticationException`, or an `SSHException`. -/
inductive ConnectResult where
  | ok
  | authError (msg : String)
  | sshError (msg : String)
deriving DecidableEq

/-- Oracles for the external effects: the connect outcome, the 7z exit
status per directory, whether `sftp_connection.put` succeeds for a local
path, and the clock reading at the i-th `compress_directory` call. -/
structure World where
  connectResult : ConnectResult
  archiverExit : String → Nat
  uploadOk : String → Bool
  timeAt : Nat → Tm

/-- The configuration record built by `get_args`
(src/sftp_backup.py lines 97-152). -/
structure Config where
  directories : List String
  command7zip : String
  archivePassword : Option String
  sftpHostname : String
  sftpPort : Nat
  sftpUsername : Option String
  sftpPassword : String
  remotePath : String
deriving DecidableEq

/-- The command-line options as provided (before argparse applies
requiredness and defaults); `none` means the flag was absent. -/
structure RawArgs where
  command7zip : Option String
  archivePassword : Option String
  hostname : Option String
  port : Option Nat
  username : Option String
  serverPassword : Option String
  remotePath : Option String
  directories : List String
deriving DecidableEq

/-- `get_args` (src/sftp_backup.py lines 97-152): `--7zip-command` and
`--hostname` are `required=True`, the positional directory list is
`nargs='+'` (at least one); `--port` defaults to 22, `--server-password`
to the empty string, `--remote-path` to `/`, the other flags to `None`.
A missing required argument makes argparse exit with a usage error. -/
def get_args (r : RawArgs) : Except String Config :=
  match r.command7zip with
  | none => .error "the following arguments are required: --7zip-command"
  | some exe =>
    match r.hostname with
    | none => .error "the following arguments are required: --hostname"
    | some host =>
      match r.directories with
      | [] => .error "the following arguments are required: directory"
      | d :: ds =>
        .ok { directories := d :: ds
              command7zip := exe
              archivePassword := r.archivePassword
              sftpHostname := host
              sftpPort := r.port.getD 22
              sftpUsername := r.username
              sftpPassword := r.serverPassword.getD ""
              remotePath := r.remotePath.getD "/" }

/-- Observable events of one run: the `pysftp.Connection` call, one 7z
subprocess invocation (with the archive path it targets and its exit
status), the `put` inside `upload_file` (attempt, then success carrying
the remote filename, which `put` takes from the local path), the
`os.remove` of the local archive, and `sftp_connection.close()`. -/
inductive Event where
  | connect (host : String) (port : Nat)
  | runArchiver (dir path : String) (code : Nat)
  | uploadAttempt (path remoteDir : String)
  | uploadedOk (path remoteName : String)
  | removeLocal (path : String)
  | closeSession
deriving DecidableEq

/-- How the process ends: `main` runs to completion (`success`), `main`
returns after a caught connect exception (`connectFailed`), an uncaught
exception propagates (`archiverFatal`, `uploadFailed`), or argparse
rejects the command line (`usageError`). -/
inductive Outcome where
  | success
  | connectFailed
  | archiverFatal (dir : String) (code : Nat)
  | uploadFailed (path : String)
  | usageError
deriving DecidableEq

/-- The process exit code for each outcome: 0 when `main` returns
normally — including the caught-connect-error paths, which just `print`
and `return` (src/sftp_backup.py lines 171-181) — 1 for an uncaught
Python exception, 2 for an argparse usage error. -/
def exitCode : Outcome → Nat
  | .success => 0
  | .connectFailed => 0
  | .archiverFatal _ _ => 1
  | .uploadFailed _ => 1
  | .usageError => 2

/-- The `for local_directory in args.directories` loop of `main`
(src/sftp_backup.py lines 183-192), followed by
`sftp_connection.close()`: for each directory, `compress_directory`,
then `upload_file`, then `os.remove`; a re-raised archiver error or an
upload exception aborts the loop (and skips the close). `idx` counts
prior iterations so each call reads its own clock value. -/
def processDirectories (w : World) (cfg : Config) (tempDir : String)
    (idx : Nat) : List String → List Event × Outcome
  | [] => ([.closeSession], .success)
  | d :: rest =>
    let code := w.archiverExit d
    match compress_directory tempDir d (w.timeAt idx) code with
    | .raised c => ([.runArchiver d (pathToArchive tempDir d (w.timeAt idx)) code],
                    .archiverFatal d c)
    | .ok path _ =>
      if w.uploadOk path then
        let next := processDirectories w cfg tempDir (idx + 1) rest
        (.runArchiver d path code :: .uploadAttempt path cfg.remotePath ::
           .uploadedOk path (basename path) :: .removeLocal path :: next.1,
         next.2)
      else
        ([.runArchiver d path code, .uploadAttempt path cfg.remotePath],
         .uploadFailed path)

/-- `main` after `get_args` (src/sftp_backup.py lines 160-192): attempt
the connection; on `AuthenticationException` or `SSHException` print and
return (exit 0, nothing else happens); otherwise run the directory
loop. -/
def mainRun (w : World) (cfg : Config) (tempDir : String) :
    List Event × Outcome :=
  match w.connectResult with
  | .ok =>
    let run := processDirectories w cfg tempDir 0 cfg.directories
    (.connect cfg.sftpHostname cfg.sftpPort :: run.1, run.2)
  | .authError _ => ([.connect cfg.sftpHostname cfg.sftpPort], .connectFailed)
  | .sshError _ => ([.connect cfg.sftpHostname cfg.sftpPort], .connectFailed)

/-- The whole program: `get_args`, then `main`'s body. An argparse usage
error stops the process before any side effect. -/
def program (w : World) (r : RawArgs) (tempDir : String) :
    List Event × Outcome :=
  match get_args r with
  | .error _ => ([], .usageError)
  | .ok cfg => mainRun w cfg tempDir

/-- Local archive files present after a trace: a 7z run with exit status
0 or 1 writes the archive; `os.remove` deletes it. -/
def applyEvent (fs : List String) : Event → List String
  | .runArchiver _ p code => if code = 0 || code = 1 then fs ++ [p] else fs
  | .removeLocal p => fs.erase p
  | _ => fs

/-- The local archive files left on disk after the whole trace. -/
def localFiles (tr : List Event) : List String := tr.foldl applyEvent []

/-- Every successful upload event is immediately followed by the
`os.remove` of the same local path. -/
def removedRightAfterUpload : List Event → Bool
  | [] => true
  | .uploadedOk p _ :: rest =>
    match rest with
    | .removeLocal q :: _ => p == q && removedRightAfterUpload rest
    | _ => false
  | _ :: rest => removedRightAfterUpload rest

/-- Is the event a 7z subprocess invocation? -/
def isArchiverRun : Event → Bool
  | .runArchiver _ _ _ => true
  | _ => false

/-- Is the event an upload attempt (`put` call)? -/
def isUploadAttempt : Event → Bool
  | .uploadAttempt _ _ => true
  | _ => false

/-- Is the event a completed upload? -/
def isUploadedOk : Event → Bool
  | .uploadedOk _ _ => true
  | _ => false

/-- Is the event an `os.remove` of a local archive? -/
def isRemove : Event → Bool
  | .removeLocal _ => true
  | _ => false

/-- Is the event the `pysftp.Connection` call? -/
def isConnect : Event → Bool
  | .connect _ _ => true
  | _ => false

/-- Is the event the `sftp_connection.close()` call? -/
def isClose : Event → Bool
  | .closeSession => true
  | _ => false

/-! ### Fixtures: concrete worlds and command lines used as witnesses -/

/-- A sample clock reading. -/
def sampleTm : Tm := ⟨2024, 3, 9, 14, 30, 5⟩

/-- A command line supplying both required flags, a password, and the
directories `/tmp/a` and `/tmp/b`. -/
def rawAB : RawArgs :=
  { command7zip := some "7z"
    archivePassword := some "pw"
    hostname := some "host"
    port := none
    username := some "u"
    serverPassword := none
    remotePath := none
    directories := ["/tmp/a", "/tmp/b"] }

/-- The configuration `get_args` builds from `rawAB` (port, server
password and remote path filled with their defaults). -/
def cfgAB : Config :=
  { directories := ["/tmp/a", "/tmp/b"]
    command7zip := "7z"
    archivePassword := some "pw"
    sftpHostname := "host"
    sftpPort := 22
    sftpUsername := some "u"
    sftpPassword := ""
    remotePath := "/" }

/-- A command line with the required `--hostname` flag missing. -/
def rawNoHost : RawArgs := { rawAB with hostname := none }

/-- A world where the connection succeeds, 7z always exits 0, and every
upload succeeds. -/
def worldOk : World :=
  { connectResult := .ok
    archiverExit := fun _ => 0
    uploadOk := fun _ => true
    timeAt := fun _ => sampleTm }

/-- A world where the connection fails with an authentication error. -/
def worldAuthFail : World :=
  { worldOk with connectResult := .authError "Bad credentials" }

/-- A world where 7z always exits 2 (a fatal archiver error). -/
def worldArchFail : World :=
  { worldOk with archiverExit := fun _ => 2 }

/-- A world where every upload raises. -/
def worldUploadFail : World :=
  { worldOk with uploadOk := fun _ => false }

/-! ### Helper lemmas -/

/-- Appending equal-length suffixes to equal results forces equal
prefixes. -/
theorem string_append_right_cancel {a b c d : String}
    (h : a ++ b = c ++ d) (hl : b.length = d.length) : a = c := by
  have hdata : a.data ++ b.data = c.data ++ d.data := by
    have := congrArg String.data h
    simpa using this
  exact String.ext (List.append_inj' hdata hl).1

/-- The `strftime` output always has 19 characters
(`YYYY.MM.DD_HH.MM.SS`). -/
theorem strftimeTimestamp_length (t : Tm) : (strftimeTimestamp t).length = 19 := rfl

/-- The archive filename in right-associated form: base name, then the
fixed-length `_<timestamp>.7z` suffix. -/
theorem archiveFilename_assoc (dir : String) (t : Tm) :
    archiveFilename dir t = basename dir ++ ("_" ++ strftimeTimestamp t ++ ".7z") := by
  simp [archiveFilename, String.append_assoc]

/-- The `_<timestamp>.7z` suffix always has 23 characters. -/
theorem archive_suffix_length (t : Tm) :
    ("_" ++ strftimeTimestamp t ++ ".7z").length = 23 := rfl

/-- Distinct base names give distinct archive filenames, whatever the two
timestamps are. -/
theorem archiveFilename_injective_of_basename_ne {d1 d2 : String} (t1 t2 : Tm)
    (h : basename d1 ≠ basename d2) :
    archiveFilename d1 t1 ≠ archiveFilename d2 t2 := by
  intro heq
  rw [archiveFilename_assoc, archiveFilename_assoc] at heq
  exact h (string_append_right_cancel heq
    (by rw [archive_suffix_length, archive_suffix_length]))

/-- `get_args rawAB` succeeds and yields `cfgAB`. -/
theorem get_args_rawAB : get_args rawAB = .ok cfgAB := rfl

/-- Loop equation: no directories left, so the session is closed and the
run succeeds. -/
theorem processDirectories_nil (w : World) (cfg : Config) (tempDir : String)
    (idx : Nat) :
    processDirectories w cfg tempDir idx [] = ([.closeSession], .success) := rfl

/-- Loop equation: a fatal archiver exit status (neither 0 nor 1) stops
the run at this directory; nothing of the remaining directories is
processed. -/
theorem processDirectories_cons_fatal (w : World) (cfg : Config)
    (tempDir d : String) (rest : List String) (idx : Nat)
    (h0 : w.archiverExit d ≠ 0) (h1 : w.archiverExit d ≠ 1) :
    processDirectories w cfg tempDir idx (d :: rest) =
      ([.runArchiver d (pathToArchive tempDir d (w.timeAt idx)) (w.archiverExit d)],
       .archiverFatal d (w.archiverExit d)) := by
  simp only [processDirectories, compress_directory]
  rw [if_neg h0, if_neg h1]

/-- Loop equation: archiver exit status 0 or 1 and a successful upload
run the full iteration and continue with the remaining directories. -/
theorem processDirectories_cons_ok (w : World) (cfg : Config)
    (tempDir d : String) (rest : List String) (idx : Nat)
    (hc : w.archiverExit d = 0 ∨ w.archiverExit d = 1)
    (hu : w.uploadOk (pathToArchive tempDir d (w.timeAt idx)) = true) :
    processDirectories w cfg tempDir idx (d :: rest) =
      (Event.runArchiver d (pathToArchive tempDir d (w.timeAt idx)) (w.archiverExit d) ::
         Event.uploadAttempt (pathToArchive tempDir d (w.timeAt idx)) cfg.remotePath ::
         Event.uploadedOk (pathToArchive tempDir d (w.timeAt idx))
           (basename (pathToArchive tempDir d (w.timeAt idx))) ::
         Event.removeLocal (pathToArchive tempDir d (w.timeAt idx)) ::
         (processDirectories w cfg tempDir (idx + 1) rest).1,
       (processDirectories w cfg tempDir (idx + 1) rest).2) := by
  rcases hc with h | h <;>
    simp only [processDirectories, compress_directory, h] <;>
    simp [hu]

/-- Loop equation: archiver exit status 0 or 1 but a failing upload stops
the run right after the upload attempt, before the `os.remove`. -/
theorem processDirectories_cons_upload_fail (w : World) (cfg : Config)
    (tempDir d : String) (rest : List String) (idx : Nat)
    (hc : w.archiverExit d = 0 ∨ w.archiverExit d = 1)
    (hu : w.uploadOk (pathToArchive tempDir d (w.timeAt idx)) = false) :
    processDirectories w cfg tempDir idx (d :: rest) =
      ([Event.runArchiver d (pathToArchive tempDir d (w.timeAt idx)) (w.archiverExit d),
        Event.uploadAttempt (pathToArchive tempDir d (w.timeAt idx)) cfg.remotePath],
       .uploadFailed (pathToArchive tempDir d (w.timeAt idx))) := by
  rcases hc with h | h <;>
    simp only [processDirectories, compress_directory, h] <;>
    simp [hu]

/-- If the successful-upload check passes for a list, it passes for its
tail. -/
theorem removedRightAfterUpload_tail {e : Event} {rest : List Event}
    (h : removedRightAfterUpload (e :: rest) = true) :
    removedRightAfterUpload rest = true := by
  cases e with
  | uploadedOk p r =>
    cases rest with
    | nil => simp [removedRightAfterUpload] at h
    | cons e2 rest2 =>
      cases e2 <;> simp [removedRightAfterUpload] at h ⊢
      exact h.2
  | connect h p => simpa [removedRightAfterUpload] using h
  | runArchiver d p c => simpa [removedRightAfterUpload] using h
  | uploadAttempt p r => simpa [removedRightAfterUpload] using h
  | removeLocal p => simpa [removedRightAfterUpload] using h
  | closeSession => simpa [removedRightAfterUpload] using h

/-- When the successful-upload check passes, the event right after any
`uploadedOk p` is `removeLocal p`. -/
theorem removedRightAfterUpload_get {l : List Event}
    (h : removedRightAfterUpload l = true) :
    ∀ (i : Nat) (p r : String), l.get? i = some (.uploadedOk p r) →
      l.get? (i + 1) = some (.removeLocal p) := by
  induction l with
  | nil => intro i p r hi; simp at hi
  | cons e rest ih =>
    intro i p r hi
    cases i with
    | zero =>
      simp only [List.get?] at hi
      injection hi with hi
      subst hi
      cases rest with
      | nil => simp [removedRightAfterUpload] at h
      | cons e2 rest2 =>
        cases e2 <;> simp [removedRightAfterUpload] at h
        obtain ⟨h1, _⟩ := h
        subst h1
        rfl
    | succ n =>
      exact ih (removedRightAfterUpload_tail h) n p r hi

/-- Every trace the directory loop produces satisfies the
successful-upload check: `os.remove` directly follows each completed
upload. -/
theorem removedRightAfterUpload_processDirectories (w : World) (cfg : Config)
    (tempDir : String) : ∀ (dirs : List String) (idx : Nat),
    removedRightAfterUpload (processDirectories w cfg tempDir idx dirs).1 = true := by
  intro dirs
  induction dirs with
  | nil => intro idx; rfl
  | cons d rest ih =>
    intro idx
    by_cases hc : w.archiverExit d = 0 ∨ w.archiverExit d = 1
    · by_cases hu : w.uploadOk (pathToArchive tempDir d (w.timeAt idx)) = true
      · rw [processDirectories_cons_ok w cfg tempDir d rest idx hc hu]
        simp [removedRightAfterUpload, ih (idx + 1)]
      · rw [processDirectories_cons_upload_fail w cfg tempDir d rest idx hc
          (by simpa using hu)]
        rfl
    · push_neg at hc
      rw [processDirectories_cons_fatal w cfg tempDir d rest idx hc.1 hc.2]
      rfl

/-- The trace the loop produces contains `closeSession` only when the
loop ran to completion. -/
theorem close_mem_processDirectories_success (w : World) (cfg : Config)
    (tempDir : String) : ∀ (dirs : List String) (idx : Nat),
    Event.closeSession ∈ (processDirectories w cfg tempDir idx dirs).1 →
    (processDirectories w cfg tempDir idx dirs).2 = .success := by
  intro dirs
  induction dirs with
  | nil => intro idx _; rfl
  | cons d rest ih =>
    intro idx hmem
    by_cases hc : w.archiverExit d = 0 ∨ w.archiverExit d = 1
    · by_cases hu : w.uploadOk (pathToArchive tempDir d (w.timeAt idx)) = true
      · rw [processDirectories_cons_ok w cfg tempDir d rest idx hc hu] at hmem ⊢
        simp at hmem
        exact ih (idx + 1) hmem
      · rw [processDirectories_cons_upload_fail w cfg tempDir d rest idx hc
          (by simpa using hu)] at hmem
        simp at hmem
    · push_neg at hc
      rw [processDirectories_cons_fatal w cfg tempDir d rest idx hc.1 hc.2] at hmem
      simp at hmem

/-! ### Claim theorems -/

/-- C4: every 7z invocation built by `compress_directory` carries the
archive-format option `-t7z`, the maximum-compression option `-mx9` and
the header-encryption option `-mhe`; with no archive password the command
line is exactly the base seven tokens (so no password option), and with a
password `p` it is the base tokens plus the single extra token `-pp`. -/
theorem compress_command_has_required_options (exe path dir : String) :
    (∀ pw : Option String,
       "-t7z" ∈ compressCommands exe path dir pw ∧
       "-mx9" ∈ compressCommands exe path dir pw ∧
       "-mhe" ∈ compressCommands exe path dir pw) ∧
    compressCommands exe path dir none =
      [exe, "a", "-t7z", path, dir, "-mhe", "-mx9"] ∧
    (∀ p : String,
       compressCommands exe path dir (some p) =
         [exe, "a", "-t7z", path, dir, "-mhe", "-mx9"] ++ ["-p" ++ p]) := by
  refine ⟨fun pw => ?_, rfl, fun p => rfl⟩
  cases pw <;> simp [compressCommands]

/-- C5: the archive filename is the directory's base name, an underscore,
the second-precision timestamp and `.7z`, placed (via `os.path.join`)
under the system temporary directory; and two directories with distinct
base names always get distinct archive filenames, whatever their
timestamps. -/
theorem archive_filename_shape_and_uniqueness
    (tempDir d d1 d2 : String) (t t1 t2 : Tm)
    (h : basename d1 ≠ basename d2) :
    archiveFilename d t = basename d ++ "_" ++ strftimeTimestamp t ++ ".7z" ∧
    pathToArchive tempDir d t = osPathJoin tempDir (archiveFilename d t) ∧
    archiveFilename d1 t1 ≠ archiveFilename d2 t2 :=
  ⟨rfl, rfl, archiveFilename_injective_of_basename_ne t1 t2 h⟩

/-- Witness for C5 at the concrete directories `/tmp/a` and `/tmp/b`. -/
theorem archive_filename_shape_and_uniqueness_witness :
    basename "/tmp/a" ≠ basename "/tmp/b" ∧
    archiveFilename "/tmp/a" sampleTm ≠ archiveFilename "/tmp/b" sampleTm :=
  ⟨by decide,
   (archive_filename_shape_and_uniqueness "/tmp" "/tmp/a" "/tmp/a" "/tmp/b"
     sampleTm sampleTm sampleTm (by decide)).2.2⟩

/-- C1 (counterexample): with an authentication failure at connect time
the failure is caught, printed and `main` just returns, so the process
exit code is 0 — not non-zero as claimed. -/
theorem connect_failure_nonzero_exit_counterexample :
    worldAuthFail.connectResult = .authError "Bad credentials" ∧
    (program worldAuthFail rawAB "/tmp").2 = .connectFailed ∧
    exitCode (program worldAuthFail rawAB "/tmp").2 = 0 :=
  ⟨rfl, rfl, rfl⟩

/-- C1 (amended): when the connect raises an authentication or
transport/handshake error, the failure is reported and `main` returns
without processing any directory, and the process exits with code 0. -/
theorem connect_failure_reports_and_exits_zero (w : World) (cfg : Config)
    (tempDir : String)
    (h : (∃ m, w.connectResult = .authError m) ∨
         ∃ m, w.connectResult = .sshError m) :
    (mainRun w cfg tempDir).2 = .connectFailed ∧
    exitCode (mainRun w cfg tempDir).2 = 0 ∧
    (mainRun w cfg tempDir).1 = [.connect cfg.sftpHostname cfg.sftpPort] := by
  rcases h with ⟨m, hm⟩ | ⟨m, hm⟩ <;> simp [mainRun, hm, exitCode]

/-- Witness for the amended C1 at a concrete failing world. -/
theorem connect_failure_reports_and_exits_zero_witness :
    (mainRun worldAuthFail cfgAB "/tmp").2 = .connectFailed ∧
    exitCode (mainRun worldAuthFail cfgAB "/tmp").2 = 0 ∧
    (mainRun worldAuthFail cfgAB "/tmp").1 = [.connect "host" 22] :=
  connect_failure_reports_and_exits_zero worldAuthFail cfgAB "/tmp"
    (Or.inl ⟨"Bad credentials", rfl⟩)

/-- C2: archiver exit status 0 or 1 lets the iteration reach the upload
of this directory's archive (status 1 returns with the warning flag set,
not an error); any other status stops the run at this directory with no
upload attempt and no events for the remaining directories. -/
theorem archiver_exit_status_policy (w : World) (cfg : Config)
    (tempDir d : String) (rest : List String) (idx : Nat) :
    ((w.archiverExit d = 0 ∨ w.archiverExit d = 1) →
       Event.uploadAttempt (pathToArchive tempDir d (w.timeAt idx)) cfg.remotePath ∈
         (processDirectories w cfg tempDir idx (d :: rest)).1) ∧
    (w.archiverExit d ≠ 0 → w.archiverExit d ≠ 1 →
       processDirectories w cfg tempDir idx (d :: rest) =
         ([.runArchiver d (pathToArchive tempDir d (w.timeAt idx)) (w.archiverExit d)],
          .archiverFatal d (w.archiverExit d))) ∧
    compress_directory tempDir d (w.timeAt idx) 1 =
      .ok (pathToArchive tempDir d (w.timeAt idx)) true := by
  refine ⟨fun hc => ?_, fun h0 h1 => processDirectories_cons_fatal w cfg tempDir d rest idx h0 h1, rfl⟩
  by_cases hu : w.uploadOk (pathToArchive tempDir d (w.timeAt idx)) = true
  · rw [processDirectories_cons_ok w cfg tempDir d rest idx hc hu]
    simp
  · rw [processDirectories_cons_upload_fail w cfg tempDir d rest idx hc
      (by simpa using hu)]
    simp

/-- Witness for C2: with exit status 0 the upload is reached; with exit
status 2 the run stops before any upload and skips `/tmp/b`. -/
theorem archiver_exit_status_policy_witness :
    (Event.uploadAttempt "/tmp/a_2024.03.09_14.30.05.7z" "/" ∈
       (processDirectories worldOk cfgAB "/tmp" 0 ["/tmp/a"]).1) ∧
    processDirectories worldArchFail cfgAB "/tmp" 0 ["/tmp/a", "/tmp/b"] =
      ([.runArchiver "/tmp/a" "/tmp/a_2024.03.09_14.30.05.7z" 2],
       .archiverFatal "/tmp/a" 2) :=
  ⟨(archiver_exit_status_policy worldOk cfgAB "/tmp" "/tmp/a" [] 0).1 (Or.inl rfl),
   (archiver_exit_status_policy worldArchFail cfgAB "/tmp" "/tmp/a" ["/tmp/b"] 0).2.1
     (by decide) (by decide)⟩

/-- C3 (counterexample): when the upload of `/tmp/a`'s archive raises,
the iteration ends at the upload attempt — there is no `os.remove` and
the local archive file is still present — refuting the claim that the
archive is deleted after the upload attempt even on failure. -/
theorem archive_deletion_on_upload_failure_counterexample :
    (program worldUploadFail rawAB "/tmp").1.countP isUploadAttempt = 1 ∧
    (program worldUploadFail rawAB "/tmp").1.countP isRemove = 0 ∧
    localFiles (program worldUploadFail rawAB "/tmp").1 =
      ["/tmp/a_2024.03.09_14.30.05.7z"] ∧
    (program worldUploadFail rawAB "/tmp").2 =
      .uploadFailed "/tmp/a_2024.03.09_14.30.05.7z" :=
  ⟨rfl, rfl, rfl, rfl⟩

/-- C3 (amended): in every iteration whose upload succeeds, the local
archive is deleted immediately after the upload and before the next
directory; if the upload raises, the run aborts before the deletion and
the local archive file remains. -/
theorem archive_deleted_after_successful_upload (w : World) (cfg : Config)
    (tempDir d : String) (rest : List String) (idx : Nat)
    (hc : w.archiverExit d = 0 ∨ w.archiverExit d = 1) :
    (w.uploadOk (pathToArchive tempDir d (w.timeAt idx)) = true →
       processDirectories w cfg tempDir idx (d :: rest) =
         (Event.runArchiver d (pathToArchive tempDir d (w.timeAt idx)) (w.archiverExit d) ::
            Event.uploadAttempt (pathToArchive tempDir d (w.timeAt idx)) cfg.remotePath ::
            Event.uploadedOk (pathToArchive tempDir d (w.timeAt idx))
              (basename (pathToArchive tempDir d (w.timeAt idx))) ::
            Event.removeLocal (pathToArchive tempDir d (w.timeAt idx)) ::
            (processDirectories w cfg tempDir (idx + 1) rest).1,
          (processDirectories w cfg tempDir (idx + 1) rest).2)) ∧
    (w.uploadOk (pathToArchive tempDir d (w.timeAt idx)) = false →
       processDirectories w cfg tempDir idx (d :: rest) =
         ([Event.runArchiver d (pathToArchive tempDir d (w.timeAt idx)) (w.archiverExit d),
           Event.uploadAttempt (pathToArchive tempDir d (w.timeAt idx)) cfg.remotePath],
          .uploadFailed (pathToArchive tempDir d (w.timeAt idx))) ∧
       pathToArchive tempDir d (w.timeAt idx) ∈
         localFiles (processDirectories w cfg tempDir idx (d :: rest)).1) := by
  constructor
  · intro hu
    exact processDirectories_cons_ok w cfg tempDir d rest idx hc hu
  · intro hu
    have heq := processDirectories_cons_upload_fail w cfg tempDir d rest idx hc hu
    refine ⟨heq, ?_⟩
    rw [heq]
    rcases hc with h | h <;> simp [localFiles, applyEvent, h]

/-- Witness for the amended C3: deletion right after the successful
upload of `/tmp/a`'s archive, and the archive left behind when that
upload fails. -/
theorem archive_deleted_after_successful_upload_witness :
    processDirectories worldOk cfgAB "/tmp" 0 ["/tmp/a"] =
      (Event.runArchiver "/tmp/a" "/tmp/a_2024.03.09_14.30.05.7z" 0 ::
         Event.uploadAttempt "/tmp/a_2024.03.09_14.30.05.7z" "/" ::
         Event.uploadedOk "/tmp/a_2024.03.09_14.30.05.7z" "a_2024.03.09_14.30.05.7z" ::
         Event.removeLocal "/tmp/a_2024.03.09_14.30.05.7z" ::
         (processDirectories worldOk cfgAB "/tmp" 1 []).1,
       (processDirectories worldOk cfgAB "/tmp" 1 []).2) ∧
    (processDirectories worldUploadFail cfgAB "/tmp" 0 ["/tmp/a"] =
       ([Event.runArchiver "/tmp/a" "/tmp/a_2024.03.09_14.30.05.7z" 0,
         Event.uploadAttempt "/tmp/a_2024.03.09_14.30.05.7z" "/"],
        .uploadFailed "/tmp/a_2024.03.09_14.30.05.7z") ∧
     "/tmp/a_2024.03.09_14.30.05.7z" ∈
       localFiles (processDirectories worldUploadFail cfgAB "/tmp" 0 ["/tmp/a"]).1) :=
  ⟨(archive_deleted_after_successful_upload worldOk cfgAB "/tmp" "/tmp/a" [] 0
      (Or.inl rfl)).1 rfl,
   (archive_deleted_after_successful_upload worldUploadFail cfgAB "/tmp" "/tmp/a" [] 0
      (Or.inl rfl)).2 rfl⟩

/-- C6: on `["/tmp/a", "/tmp/b"]` with 7z always exiting 0 and all
uploads succeeding, the run performs exactly one connect, two archiver
runs, two uploads (each storing the file under its generated archive
filename), two local deletions and one close, leaves no local archive
behind, and exits with code 0. -/
theorem end_to_end_two_directories :
    (program worldOk rawAB "/tmp").1 =
      [.connect "host" 22,
       .runArchiver "/tmp/a" "/tmp/a_2024.03.09_14.30.05.7z" 0,
       .uploadAttempt "/tmp/a_2024.03.09_14.30.05.7z" "/",
       .uploadedOk "/tmp/a_2024.03.09_14.30.05.7z" "a_2024.03.09_14.30.05.7z",
       .removeLocal "/tmp/a_2024.03.09_14.30.05.7z",
       .runArchiver "/tmp/b" "/tmp/b_2024.03.09_14.30.05.7z" 0,
       .uploadAttempt "/tmp/b_2024.03.09_14.30.05.7z" "/",
       .uploadedOk "/tmp/b_2024.03.09_14.30.05.7z" "b_2024.03.09_14.30.05.7z",
       .removeLocal "/tmp/b_2024.03.09_14.30.05.7z",
       .closeSession] ∧
    (program worldOk rawAB "/tmp").2 = .success ∧
    exitCode (program worldOk rawAB "/tmp").2 = 0 ∧
    (program worldOk rawAB "/tmp").1.countP isConnect = 1 ∧
    (program worldOk rawAB "/tmp").1.countP isClose = 1 ∧
    (program worldOk rawAB "/tmp").1.countP isArchiverRun = 2 ∧
    (program worldOk rawAB "/tmp").1.countP isUploadedOk = 2 ∧
    (program worldOk rawAB "/tmp").1.countP isRemove = 2 ∧
    localFiles (program worldOk rawAB "/tmp").1 = [] ∧
    basename "/tmp/a_2024.03.09_14.30.05.7z" = archiveFilename "/tmp/a" sampleTm ∧
    basename "/tmp/b_2024.03.09_14.30.05.7z" = archiveFilename "/tmp/b" sampleTm := by
  refine ⟨rfl, rfl, rfl, rfl, rfl, rfl, rfl, rfl, rfl, rfl, rfl⟩

/-- C7: an authentication failure at connect time makes `main` return
right away: the trace holds only the connect call — no archiver run, no
upload attempt — and no local archive exists. -/
theorem auth_failure_no_archives_no_uploads (w : World) (cfg : Config)
    (tempDir msg : String) (h : w.connectResult = .authError msg) :
    mainRun w cfg tempDir =
      ([.connect cfg.sftpHostname cfg.sftpPort], .connectFailed) ∧
    (mainRun w cfg tempDir).1.countP isArchiverRun = 0 ∧
    (mainRun w cfg tempDir).1.countP isUploadAttempt = 0 ∧
    localFiles (mainRun w cfg tempDir).1 = [] := by
  have hm : mainRun w cfg tempDir =
      ([.connect cfg.sftpHostname cfg.sftpPort], .connectFailed) := by
    simp [mainRun, h]
  refine ⟨hm, ?_, ?_, ?_⟩ <;> rw [hm] <;> rfl

/-- Witness for C7 at a concrete failing world. -/
theorem auth_failure_no_archives_no_uploads_witness :
    mainRun worldAuthFail cfgAB "/tmp" = ([.connect "host" 22], .connectFailed) ∧
    (mainRun worldAuthFail cfgAB "/tmp").1.countP isArchiverRun = 0 ∧
    (mainRun worldAuthFail cfgAB "/tmp").1.countP isUploadAttempt = 0 ∧
    localFiles (mainRun worldAuthFail cfgAB "/tmp").1 = [] :=
  auth_failure_no_archives_no_uploads worldAuthFail cfgAB "/tmp" "Bad credentials" rfl

/-- C8: in every run, each completed upload is immediately followed by
the `os.remove` of the same local archive path, so right after a
successful upload the archive no longer exists locally. -/
theorem upload_immediately_followed_by_delete (w : World) (cfg : Config)
    (tempDir : String) :
    removedRightAfterUpload (mainRun w cfg tempDir).1 = true ∧
    ∀ (i : Nat) (p r : String),
      (mainRun w cfg tempDir).1.get? i = some (.uploadedOk p r) →
      (mainRun w cfg tempDir).1.get? (i + 1) = some (.removeLocal p) := by
  have hall : removedRightAfterUpload (mainRun w cfg tempDir).1 = true := by
    cases hw : w.connectResult with
    | ok =>
      simp only [mainRun, hw]
      simpa [removedRightAfterUpload] using
        removedRightAfterUpload_processDirectories w cfg tempDir cfg.directories 0
    | authError m => simp [mainRun, hw, removedRightAfterUpload]
    | sshError m => simp [mainRun, hw, removedRightAfterUpload]
  exact ⟨hall, fun i p r hi => removedRightAfterUpload_get hall i p r hi⟩

/-- Witness for C8: in the successful two-directory run, the event after
the completed upload at index 3 is the removal of the same archive. -/
theorem upload_immediately_followed_by_delete_witness :
    (mainRun worldOk cfgAB "/tmp").1.get? 4 =
      some (.removeLocal "/tmp/a_2024.03.09_14.30.05.7z") :=
  (upload_immediately_followed_by_delete worldOk cfgAB "/tmp").2 3
    "/tmp/a_2024.03.09_14.30.05.7z" "a_2024.03.09_14.30.05.7z" rfl

/-- C9: a command line missing the archiver flag, missing the hostname,
or supplying no directory makes `get_args` fail with a usage error; the
process exits non-zero and produces no side effect (no connect, no
archiver run). -/
theorem usage_error_before_side_effects (w : World) (r : RawArgs)
    (tempDir : String)
    (h : r.command7zip = none ∨ r.hostname = none ∨ r.directories = []) :
    (∃ msg, get_args r = .error msg) ∧
    program w r tempDir = ([], .usageError) ∧
    exitCode (program w r tempDir).2 ≠ 0 := by
  have herr : ∃ msg, get_args r = .error msg := by
    rcases h with h | h | h
    · simp [get_args, h]
    · cases hc : r.command7zip <;> simp [get_args, h, hc]
    · cases hc : r.command7zip <;> cases hh : r.hostname <;>
        simp [get_args, h, hc, hh]
  obtain ⟨msg, hm⟩ := herr
  have hp : program w r tempDir = ([], .usageError) := by
    simp [program, hm]
  exact ⟨⟨msg, hm⟩, hp, by rw [hp]; simp [exitCode]⟩

/-- Witness for C9 on a command line without `--hostname`. -/
theorem usage_error_before_side_effects_witness :
    (∃ msg, get_args rawNoHost = .error msg) ∧
    program worldOk rawNoHost "/tmp" = ([], .usageError) ∧
    exitCode (program worldOk rawNoHost "/tmp").2 ≠ 0 :=
  usage_error_before_side_effects worldOk rawNoHost "/tmp" (Or.inr (Or.inl rfl))

/-- C10: when the run ends in a fatal archiver error or an upload error,
the uncaught exception propagates out of the loop and
`sftp_connection.close()` is never reached. -/
theorem no_close_on_fatal_error (w : World) (cfg : Config) (tempDir : String)
    (h : (∃ d c, (mainRun w cfg tempDir).2 = .archiverFatal d c) ∨
         ∃ p, (mainRun w cfg tempDir).2 = .uploadFailed p) :
    Event.closeSession ∉ (mainRun w cfg tempDir).1 := by
  intro hmem
  cases hw : w.connectResult with
  | ok =>
    simp only [mainRun, hw] at hmem h
    simp at hmem
    have hs := close_mem_processDirectories_success w cfg tempDir cfg.directories 0 hmem
    rcases h with ⟨d, c, hval⟩ | ⟨p, hval⟩ <;> rw [hs] at hval <;> exact Outcome.noConfusion hval
  | authError m =>
    simp only [mainRun, hw] at h
    rcases h with ⟨d, c, hval⟩ | ⟨p, hval⟩ <;> exact Outcome.noConfusion hval
  | sshError m =>
    simp only [mainRun, hw] at h
    rcases h with ⟨d, c, hval⟩ | ⟨p, hval⟩ <;> exact Outcome.noConfusion hval

/-- Witness for C10: in the world where 7z exits 2, the close call never
appears in the trace. -/
theorem no_close_on_fatal_error_witness :
    Event.closeSession ∉ (mainRun worldArchFail cfgAB "/tmp").1 :=
  no_close_on_fatal_error worldArchFail cfgAB "/tmp"
    (Or.inl ⟨"/tmp/a", 2, rfl⟩)

end SftpBackup
